import Mathlib

/-!
Verification development for the lead-scoring serving core.

The embedding below follows the Python sources:
  * `predict.py`  — `LeadScorer.__init__`, `LeadScorer.predict`,
    `LeadScorer.get_explanation`, `LeadScorer._get_feature_names`;
  * `data.py`     — `get_preprocessing_pipeline` (median imputer + standard
    scaler for numeric columns; constant-"missing" imputer + one-hot encoder
    with `handle_unknown='ignore'` for categorical columns);
  * `orchestrator.py` — `LeadOrchestrator.__init__`, `process_new_lead`,
    `_trigger_high_intent_action`.

Numbers are modelled with `ℚ` (the float computations idealised as exact
rational arithmetic); Python's `round` (banker's rounding, round half to
even) is modelled by `pythonRound`.  The fitted classifier's probability
function (`pipeline.predict_proba(...)[0][1]`, the positive-class
probability, a logistic over the transformed vector) is carried in the
artifact as a rational-valued function of the transformed feature vector,
since the exact float sigmoid is not expressible; the range facts the spec
derives from the logistic (values in `[0,1]`) appear as hypotheses where
they are used.
-/

/-- A raw lead attribute value (`dict` values in `predict.py`): a number or
a string.  A key that is absent from the mapping models a missing value
(`np.nan` after the column-alignment loop in `LeadScorer.predict`). -/
inductive LeadValue where
  | num (q : ℚ)
  | str (s : String)
deriving DecidableEq

/-- A raw lead: the `lead_data` dictionary, as an association list from
field name to value. -/
abbrev Lead := List (String × LeadValue)

/-- Dictionary lookup on a lead (first binding wins, as in a Python dict
where keys are unique). -/
def lookupLead (lead : Lead) (f : String) : Option LeadValue :=
  lead.lookup f

/-- Fitted state of the numeric branch of `get_preprocessing_pipeline`:
`SimpleImputer(strategy='median')` stores the training median, and
`StandardScaler` stores the training mean and scale (standard deviation). -/
structure NumParams where
  median : ℚ
  mean : ℚ
  scale : ℚ
deriving DecidableEq

/-- Fitted state of the categorical branch of `get_preprocessing_pipeline`:
`OneHotEncoder` stores the list of category values seen at fit time
(`categories_`), in the encoder's output order. -/
structure CatParams where
  categories : List String
deriving DecidableEq

/-- The explanation record returned by `LeadScorer.get_explanation`. -/
structure Explanation where
  top_positive_factors : List String
  top_negative_factors : List String
deriving DecidableEq

/-- The record returned by `LeadScorer.predict`. -/
structure ScoreRecord where
  score : ℤ
  probability : ℚ
  explanation : Explanation
deriving DecidableEq

/-- The frozen model artifact: the fitted preprocessor state for the
metadata's `num_cols` and `cat_cols` (in order), the classifier's
coefficient row `model.coef_[0]`, and the classifier's positive-class
probability function applied to a transformed feature vector
(`pipeline.predict_proba(df)[0][1]` composed after the preprocessor). -/
structure Artifact where
  numCols : List (String × NumParams)
  catCols : List (String × CatParams)
  coef : List ℚ
  proba : List ℚ → ℚ

/-- `LeadScorer.__init__`: `joblib.load` of the pipeline and metadata is
wrapped in `try/except`; on any load failure `self.pipeline = None`,
otherwise the artifact is kept as loaded.  No structural check (in
particular no coefficient-width check) is performed. -/
def loadScorer (loaded : Option Artifact) : Option Artifact :=
  match loaded with
  | some a => some a
  | none => none

/-- Python 3 `round(q)`: round half to even (banker's rounding). -/
def pythonRound (q : ℚ) : ℤ :=
  if q - (⌊q⌋ : ℚ) < 1/2 then ⌊q⌋
  else if 1/2 < q - (⌊q⌋ : ℚ) then ⌊q⌋ + 1
  else if ⌊q⌋ % 2 = 0 then ⌊q⌋ else ⌊q⌋ + 1

/-- Python 3 `round(q, d)`: round to `d` decimal places, half to even. -/
def roundTo (d : ℕ) (q : ℚ) : ℚ :=
  (pythonRound (q * 10 ^ d) : ℚ) / 10 ^ d

/-- The numeric coordinate for one column: `SimpleImputer` replaces a
missing value by the stored training median, then `StandardScaler` maps
`x` to `(x - mean) / scale`.  (A non-numeric value in a numeric column is
outside the source's happy path and is treated as missing.) -/
def numFeature (lead : Lead) (f : String) (p : NumParams) : ℚ :=
  let x : ℚ :=
    match lookupLead lead f with
    | some (.num q) => q
    | _ => p.median
  (x - p.mean) / p.scale

/-- The one-hot row of `OneHotEncoder` for an observed string value: one
indicator per category seen at fit time; a value not among them yields an
all-zero row (`handle_unknown='ignore'`). -/
def oneHot (cats : List String) (s : String) : List ℚ :=
  cats.map (fun c => if c = s then 1 else 0)

/-- The categorical block for one column: `SimpleImputer` replaces a
missing value by the constant sentinel `"missing"`, then the value is
one-hot encoded.  (A numeric value in a categorical column is not among
the string categories seen at fit, hence an all-zero row.) -/
def catFeature (lead : Lead) (f : String) (p : CatParams) : List ℚ :=
  match lookupLead lead f with
  | none => oneHot p.categories "missing"
  | some (.str s) => oneHot p.categories s
  | some (.num _) => p.categories.map (fun _ => 0)

/-- `preprocessor.transform` on the aligned single-row frame: the
`ColumnTransformer` output is the numeric coordinates for `num_cols` in
order, followed by the one-hot blocks for `cat_cols` in order.  Column
alignment in `LeadScorer.predict` (add missing schema columns as NaN,
select exactly `num_cols + cat_cols`) is captured by looking up only the
artifact's own columns: extra keys are never read, absent keys read as
`none`. -/
def transformA (a : Artifact) (lead : Lead) : List ℚ :=
  a.numCols.map (fun p => numFeature lead p.1 p.2)
    ++ a.catCols.flatMap (fun p => catFeature lead p.1 p.2)

/-- `LeadScorer._get_feature_names`: numeric feature names as-is, then for
each categorical feature the encoder's `get_feature_names_out`, i.e.
`<field>_<category>` for each category seen at fit time, in order. -/
def featureNames (a : Artifact) : List String :=
  a.numCols.map Prod.fst
    ++ a.catCols.flatMap (fun p => p.2.categories.map (fun c => p.1 ++ "_" ++ c))

/-- The transformer's output width (number of coordinates of the feature
vector / of output feature names). -/
def featureWidth (a : Artifact) : ℕ :=
  (featureNames a).length

/-- `impact_series.sort_values(ascending=False)`, modelled as a stable
sort by impact value, descending.  (pandas' default sort kind is
`'quicksort'`, which is not guaranteed stable; the embedding fixes the tie
order to first-seen, which is what a stable sort gives.) -/
def sortValuesDesc (l : List (String × ℚ)) : List (String × ℚ) :=
  l.insertionSort (fun p q => q.2 ≤ p.2)

/-- `impact_series.sort_values(ascending=True)`, modelled as a stable sort
by impact value, ascending (same caveat as `sortValuesDesc`). -/
def sortValuesAsc (l : List (String × ℚ)) : List (String × ℚ) :=
  l.insertionSort (fun p q => p.2 ≤ q.2)

/-- `LeadScorer.get_explanation`: impacts are the element-wise product of
the transformed row and `model.coef_[0]`; the impact series is indexed by
the output feature names; the top positive (negative) factors are the
names of the first three entries after sorting by value descending
(ascending). -/
def getExplanation (a : Artifact) (lead : Lead) : Explanation :=
  let x := transformA a lead
  let impacts := List.zipWith (· * ·) x a.coef
  let series := (featureNames a).zip impacts
  { top_positive_factors := ((sortValuesDesc series).take 3).map Prod.fst
    top_negative_factors := ((sortValuesAsc series).take 3).map Prod.fst }

/-- The body of `LeadScorer.predict` once a pipeline is loaded: align the
lead to the schema columns, take the positive-class probability, round the
score, and attach the explanation. -/
def predictA (a : Artifact) (lead : Lead) : ScoreRecord :=
  let prob := a.proba (transformA a lead)
  { score := pythonRound (prob * 100)
    probability := roundTo 4 prob
    explanation := getExplanation a lead }

/-- `LeadScorer.predict`: returns `None` when no pipeline was loaded,
otherwise the score record. -/
def scorerPredict (s : Option Artifact) (lead : Lead) : Option ScoreRecord :=
  match s with
  | none => none
  | some a => some (predictA a lead)

/-- The persistence collaborator (`db_supabase.SupabaseDB`), abstracted to
the two calls `process_new_lead` makes: `insert_lead(raw_data, tenant_id)`
returning a lead id, and `insert_score(lead_id, score, probability,
explanation)`.  Either call may raise, modelled by `Except`. -/
structure DB where
  insertLead : Lead → String → Except String Nat
  insertScore : Nat → ℤ → ℚ → Explanation → Except String Unit

/-- The default `action_threshold` of `LeadOrchestrator.__init__`. -/
def defaultActionThreshold : ℤ := 70

/-- Observable outcome of one `LeadOrchestrator.process_new_lead` call:
its return value, the errors its two `try/except` blocks logged, and
whether `_trigger_high_intent_action` ran. -/
structure ProcessOutcome where
  result : Option ScoreRecord
  ingestError : Option String
  persistError : Option String
  actionTriggered : Bool

/-- `LeadOrchestrator.process_new_lead`: (1) ingest the raw lead if a DB
connection exists, catching and logging any failure (`lead_id` stays
`None`); (2) predict, returning `None` if prediction failed; (3) persist
the score if the DB exists and ingest produced an id, catching and
logging any failure; (4) trigger the high-intent action when
`score >= action_threshold`; return the prediction result. -/
def processNewLead (scorer : Option Artifact) (db : Option DB) (threshold : ℤ)
    (lead : Lead) (tenant : String) : ProcessOutcome :=
  let ingest : Option Nat × Option String :=
    match db with
    | none => (none, none)
    | some d =>
      match d.insertLead lead tenant with
      | .ok i => (some i, none)
      | .error e => (none, some e)
  match scorerPredict scorer lead with
  | none =>
      { result := none
        ingestError := ingest.2
        persistError := none
        actionTriggered := false }
  | some r =>
      let persistErr : Option String :=
        match db, ingest.1 with
        | some d, some i =>
          match d.insertScore i r.score r.probability r.explanation with
          | .ok _ => none
          | .error e => some e
        | _, _ => none
      { result := some r
        ingestError := ingest.2
        persistError := persistErr
        actionTriggered := decide (threshold ≤ r.score) }

/-- A concrete fitted artifact used by the witnesses: one numeric column
and one categorical column with three categories, four coefficients
(matching the transformer width), and a constant probability `1/2`. -/
def sampleArtifact : Artifact :=
  { numCols := [("time_on_site", ⟨100, 50, 2⟩)]
    catCols := [("channel", ⟨["Email", "Web", "missing"]⟩)]
    coef := [1, 2, -1, 1/2]
    proba := fun _ => 1/2 }

/-- A concrete artifact whose coefficient row is shorter than the
transformer's output width (2 coefficients against width 3). -/
def mismatchedArtifact : Artifact :=
  { numCols := [("time_on_site", ⟨10, 5, 2⟩)]
    catCols := [("channel", ⟨["Email", "Web"]⟩)]
    coef := [1, -1]
    proba := fun _ => 1/2 }

/-- A persistence collaborator whose calls all fail. -/
def failingDB : DB :=
  { insertLead := fun _ _ => .error "db down"
    insertScore := fun _ _ _ _ => .error "db down" }

/-- A persistence collaborator whose ingest succeeds but whose score
persist fails. -/
def halfFailingDB : DB :=
  { insertLead := fun _ _ => .ok 7
    insertScore := fun _ _ _ _ => .error "score insert failed" }

/-- A concrete lead whose categorical value was not seen at fit time. -/
def unseenLead : Lead := [("channel", .str "Slack"), ("time_on_site", .num 60)]

/-! ## Rounding lemmas -/

theorem floor_le_pythonRound (q : ℚ) : ⌊q⌋ ≤ pythonRound q := by
  unfold pythonRound
  split
  · omega
  · split
    · omega
    · split <;> omega

theorem le_pythonRound_of_le {m : ℤ} {q : ℚ} (h : (m : ℚ) ≤ q) : m ≤ pythonRound q :=
  le_trans (Int.le_floor.mpr h) (floor_le_pythonRound q)

theorem pythonRound_le_of_le {m : ℤ} {q : ℚ} (h : q ≤ (m : ℚ)) : pythonRound q ≤ m := by
  have hfm : ⌊q⌋ ≤ m := by
    have := Int.floor_le_floor h
    rwa [Int.floor_intCast] at this
  by_cases hlt : q - (⌊q⌋ : ℚ) < 1/2
  · unfold pythonRound
    rw [if_pos hlt]
    exact hfm
  · have h2 : (1 : ℚ)/2 ≤ q - (⌊q⌋ : ℚ) := not_lt.mp hlt
    have hcast : ((⌊q⌋ : ℤ) : ℚ) < (m : ℚ) := by linarith
    have hm : ⌊q⌋ < m := by exact_mod_cast hcast
    unfold pythonRound
    rw [if_neg hlt]
    split
    · omega
    · split <;> omega

/-! ## C1 -/

/-- C1: for every lead for which `LeadScorer.predict` returns a result,
the returned score equals `round(probability * 100)` with `probability`
the classifier's positive-class probability; the score is an integer in
`[0, 100]`; and the returned probability is that probability rounded to 4
decimal places (hence itself in `[0, 1]`).  The positive-class probability
lies in `[0, 1]` (a range fact of the logistic classifier), taken here as
hypotheses `h0`, `h1`. -/
theorem predict_score_and_probability (a : Artifact) (lead : Lead)
    (h0 : 0 ≤ a.proba (transformA a lead)) (h1 : a.proba (transformA a lead) ≤ 1) :
    ∃ r : ScoreRecord, scorerPredict (some a) lead = some r ∧
      r.score = pythonRound (a.proba (transformA a lead) * 100) ∧
      0 ≤ r.score ∧ r.score ≤ 100 ∧
      r.probability = roundTo 4 (a.proba (transformA a lead)) ∧
      0 ≤ r.probability ∧ r.probability ≤ 1 := by
  refine ⟨predictA a lead, rfl, rfl, ?_, ?_, rfl, ?_, ?_⟩
  · show (0 : ℤ) ≤ pythonRound (a.proba (transformA a lead) * 100)
    refine le_pythonRound_of_le ?_
    push_cast
    nlinarith
  · show pythonRound (a.proba (transformA a lead) * 100) ≤ (100 : ℤ)
    refine pythonRound_le_of_le ?_
    push_cast
    nlinarith
  · show 0 ≤ roundTo 4 (a.proba (transformA a lead))
    unfold roundTo
    refine div_nonneg ?_ (by norm_num)
    have hr : (0 : ℤ) ≤ pythonRound (a.proba (transformA a lead) * 10 ^ 4) := by
      refine le_pythonRound_of_le ?_
      push_cast
      nlinarith
    exact_mod_cast hr
  · show roundTo 4 (a.proba (transformA a lead)) ≤ 1
    unfold roundTo
    rw [div_le_one (by norm_num)]
    have hr : pythonRound (a.proba (transformA a lead) * 10 ^ 4) ≤ (10000 : ℤ) := by
      refine pythonRound_le_of_le ?_
      push_cast
      nlinarith
    have : ((pythonRound (a.proba (transformA a lead) * 10 ^ 4) : ℤ) : ℚ) ≤ (10000 : ℚ) := by
      exact_mod_cast hr
    linarith [this]

/-- Witness for C1: the concrete artifact `sampleArtifact` (probability
`1/2`) on the empty lead satisfies the hypotheses and the conclusion. -/
theorem predict_score_and_probability_witness :
    (0 ≤ sampleArtifact.proba (transformA sampleArtifact [])) ∧
    (sampleArtifact.proba (transformA sampleArtifact []) ≤ 1) ∧
    (∃ r : ScoreRecord, scorerPredict (some sampleArtifact) [] = some r ∧
      r.score = pythonRound (sampleArtifact.proba (transformA sampleArtifact []) * 100) ∧
      0 ≤ r.score ∧ r.score ≤ 100 ∧
      r.probability = roundTo 4 (sampleArtifact.proba (transformA sampleArtifact [])) ∧
      0 ≤ r.probability ∧ r.probability ≤ 1) :=
  ⟨by norm_num [sampleArtifact], by norm_num [sampleArtifact],
    predict_score_and_probability sampleArtifact []
      (by norm_num [sampleArtifact]) (by norm_num [sampleArtifact])⟩

/-! ## Structural lemmas about the transformer -/

/-- The one-hot row always has one coordinate per category seen at fit. -/
theorem oneHot_length (cats : List String) (s : String) :
    (oneHot cats s).length = cats.length := by
  simp [oneHot]

/-- The categorical block always has one coordinate per category seen at
fit, whatever the lead holds. -/
theorem catFeature_length (lead : Lead) (f : String) (p : CatParams) :
    (catFeature lead f p).length = p.categories.length := by
  unfold catFeature
  split <;> simp [oneHot]

/-- Encoding a value not seen at fit time yields an all-zero row
(`handle_unknown='ignore'`). -/
theorem oneHot_unseen {cats : List String} {s : String} (h : s ∉ cats) :
    oneHot cats s = List.replicate cats.length 0 := by
  induction cats with
  | nil => rfl
  | cons c cs ih =>
    have hcs : c ≠ s := fun hc => h (hc ▸ List.mem_cons_self c cs)
    have hs : s ∉ cs := fun hm => h (List.mem_cons_of_mem c hm)
    simp [oneHot, List.replicate_succ, hcs] at ih ⊢
    exact ih hs

/-- The output feature names and the feature vector have the same length:
each coordinate of the transformed row has exactly one name. -/
theorem featureNames_length_eq (a : Artifact) (lead : Lead) :
    (featureNames a).length = (transformA a lead).length := by
  unfold featureNames transformA
  simp only [List.length_append, List.length_map, List.length_flatMap]
  congr 1
  refine congrArg List.sum (List.map_congr_left ?_)
  intro p _
  simp [catFeature_length]

/-! ## C2 -/

/-- C2: the contribution vector is the element-wise product of the
transformed feature vector and the classifier's coefficient row;
`top_positive_factors` (resp. `top_negative_factors`) are the names of
the three largest (resp. smallest) contributions, listed in descending
(resp. ascending) contribution order, at most three each; and every
coordinate is named by the transformer's output-name ordering (numeric
field names as-is, then `<field>_<category>` per fitted category). -/
theorem explanation_top3 (a : Artifact) (lead : Lead) :
    (getExplanation a lead).top_positive_factors.length ≤ 3 ∧
    (getExplanation a lead).top_negative_factors.length ≤ 3 ∧
    (featureNames a).length = (transformA a lead).length ∧
    featureNames a
      = a.numCols.map Prod.fst
        ++ a.catCols.flatMap (fun p => p.2.categories.map (fun c => p.1 ++ "_" ++ c)) ∧
    (∃ L : List (String × ℚ),
      L.Perm ((featureNames a).zip (List.zipWith (· * ·) (transformA a lead) a.coef)) ∧
      L.Sorted (fun p q => q.2 ≤ p.2) ∧
      (getExplanation a lead).top_positive_factors = (L.take 3).map Prod.fst ∧
      ∀ p ∈ L.take 3, ∀ q ∈ L.drop 3, q.2 ≤ p.2) ∧
    (∃ L : List (String × ℚ),
      L.Perm ((featureNames a).zip (List.zipWith (· * ·) (transformA a lead) a.coef)) ∧
      L.Sorted (fun p q => p.2 ≤ q.2) ∧
      (getExplanation a lead).top_negative_factors = (L.take 3).map Prod.fst ∧
      ∀ p ∈ L.take 3, ∀ q ∈ L.drop 3, p.2 ≤ q.2) := by
  haveI hTotD : IsTotal (String × ℚ) (fun p q => q.2 ≤ p.2) := ⟨fun x y => le_total y.2 x.2⟩
  haveI hTrD : IsTrans (String × ℚ) (fun p q => q.2 ≤ p.2) :=
    ⟨fun x y z h1 h2 => le_trans h2 h1⟩
  haveI hTotA : IsTotal (String × ℚ) (fun p q => p.2 ≤ q.2) := ⟨fun x y => le_total x.2 y.2⟩
  haveI hTrA : IsTrans (String × ℚ) (fun p q => p.2 ≤ q.2) :=
    ⟨fun x y z h1 h2 => le_trans h1 h2⟩
  refine ⟨?_, ?_, featureNames_length_eq a lead, rfl, ?_, ?_⟩
  · simp [getExplanation, List.length_take]
  · simp [getExplanation, List.length_take]
  · refine ⟨sortValuesDesc ((featureNames a).zip
      (List.zipWith (· * ·) (transformA a lead) a.coef)), ?_, ?_, rfl, ?_⟩
    · exact List.perm_insertionSort _ _
    · exact List.sorted_insertionSort _ _
    · intro p hp q hq
      set L := sortValuesDesc ((featureNames a).zip
        (List.zipWith (· * ·) (transformA a lead) a.coef)) with hL
      have hs : List.Sorted (fun p q : String × ℚ => q.2 ≤ p.2) L :=
        List.sorted_insertionSort _ _
      have hpw : List.Pairwise (fun p q : String × ℚ => q.2 ≤ p.2) (L.take 3 ++ L.drop 3) := by
        rw [List.take_append_drop]
        exact hs
      exact (List.pairwise_append.mp hpw).2.2 p hp q hq
  · refine ⟨sortValuesAsc ((featureNames a).zip
      (List.zipWith (· * ·) (transformA a lead) a.coef)), ?_, ?_, rfl, ?_⟩
    · exact List.perm_insertionSort _ _
    · exact List.sorted_insertionSort _ _
    · intro p hp q hq
      set L := sortValuesAsc ((featureNames a).zip
        (List.zipWith (· * ·) (transformA a lead) a.coef)) with hL
      have hs : List.Sorted (fun p q : String × ℚ => p.2 ≤ q.2) L :=
        List.sorted_insertionSort _ _
      have hpw : List.Pairwise (fun p q : String × ℚ => p.2 ≤ q.2) (L.take 3 ++ L.drop 3) := by
        rw [List.take_append_drop]
        exact hs
      exact (List.pairwise_append.mp hpw).2.2 p hp q hq

/-! ## C3 -/

/-- C3: if no frozen artifact could be loaded (`self.pipeline = None`
after the `try/except` in `__init__`), `predict` returns no result for
every lead — never a fabricated score. -/
theorem predict_none_when_model_unavailable (lead : Lead) :
    scorerPredict (loadScorer none) lead = none := rfl

/-! ## C4 -/

/-- C4 (behaviour at the failing input): `__init__` accepts the concrete
artifact whose stored coefficient row has 2 entries while the
transformer's output width is 3 — the load is not rejected, contrary to
the spec's `ModelUnavailable` requirement for structurally inconsistent
artifacts. -/
theorem load_accepts_mismatched_artifact :
    loadScorer (some mismatchedArtifact) = some mismatchedArtifact ∧
    mismatchedArtifact.coef.length = 2 ∧
    featureWidth mismatchedArtifact = 3 := by
  refine ⟨rfl, rfl, ?_⟩
  decide

/-! ## C5 -/

/-- C5: (i) the feature vector is the numeric coordinates followed by the
per-field categorical blocks; (ii) a categorical value not seen at fit
time produces an all-zero block for that field; (iii) a lead missing all
categorical fields has as its categorical portion exactly the row the
`"missing"` sentinel category encodes to, for each categorical field. -/
theorem transform_unseen_and_missing (a : Artifact) (lead : Lead) :
    (transformA a lead
      = a.numCols.map (fun p => numFeature lead p.1 p.2)
        ++ a.catCols.flatMap (fun p => catFeature lead p.1 p.2)) ∧
    (∀ f p s, lookupLead lead f = some (.str s) → s ∉ p.categories →
      catFeature lead f p = List.replicate p.categories.length 0) ∧
    ((∀ f ∈ a.catCols.map Prod.fst, lookupLead lead f = none) →
      (transformA a lead).drop a.numCols.length
        = a.catCols.flatMap (fun p => oneHot p.2.categories "missing")) := by
  refine ⟨rfl, ?_, ?_⟩
  · intro f p s hs hns
    unfold catFeature
    rw [hs]
    exact oneHot_unseen hns
  · intro h
    unfold transformA
    have hlen : (a.numCols.map (fun p => numFeature lead p.1 p.2)).length
        = a.numCols.length := List.length_map _ _
    rw [← hlen, List.drop_left]
    refine List.flatMap_congr ?_
    intro p hp
    unfold catFeature
    rw [h p.1 (List.mem_map_of_mem Prod.fst hp)]

/-- Witness for C5: the unseen category value `"Slack"` encodes to the
all-zero block, and the empty lead's categorical portion is the
`"missing"` rows, on the concrete `sampleArtifact`. -/
theorem transform_unseen_and_missing_witness :
    catFeature unseenLead "channel" ⟨["Email", "Web", "missing"]⟩
        = List.replicate (["Email", "Web", "missing"] : List String).length 0 ∧
    (transformA sampleArtifact []).drop sampleArtifact.numCols.length
        = sampleArtifact.catCols.flatMap (fun p => oneHot p.2.categories "missing") :=
  ⟨(transform_unseen_and_missing sampleArtifact unseenLead).2.1 "channel"
      ⟨["Email", "Web", "missing"]⟩ "Slack" rfl (by decide),
    (transform_unseen_and_missing sampleArtifact []).2.2 (by decide)⟩

/-! ## C6 -/

/-- The transformer reads only the schema columns of a lead: two leads
that agree on every schema field transform identically. -/
theorem transformA_congr (a : Artifact) (l₁ l₂ : Lead)
    (h : ∀ f ∈ a.numCols.map Prod.fst ++ a.catCols.map Prod.fst,
      lookupLead l₁ f = lookupLead l₂ f) :
    transformA a l₁ = transformA a l₂ := by
  unfold transformA
  congr 1
  · refine List.map_congr_left ?_
    intro p hp
    unfold numFeature
    rw [h p.1 (List.mem_append_left _ (List.mem_map_of_mem Prod.fst hp))]
  · refine List.flatMap_congr ?_
    intro p hp
    unfold catFeature
    rw [h p.1 (List.mem_append_right _ (List.mem_map_of_mem Prod.fst hp))]

/-- C6: keys outside the schema are ignored and absent schema keys are
treated as missing — two leads agreeing on every schema field (in
particular, a lead with arbitrary extra keys and its restriction to the
schema) predict identically; the entirely empty lead still yields a score
record (no error), its feature vector fully filled by the missing-value
policy (scaled medians, `"missing"`-sentinel one-hot rows). -/
theorem predict_schema_only_and_empty_lead (a : Artifact) :
    (∀ l₁ l₂ : Lead,
      (∀ f ∈ a.numCols.map Prod.fst ++ a.catCols.map Prod.fst,
        lookupLead l₁ f = lookupLead l₂ f) →
      scorerPredict (some a) l₁ = scorerPredict (some a) l₂) ∧
    scorerPredict (some a) [] = some (predictA a []) ∧
    transformA a []
      = a.numCols.map (fun p => (p.2.median - p.2.mean) / p.2.scale)
        ++ a.catCols.flatMap (fun p => oneHot p.2.categories "missing") := by
  refine ⟨?_, rfl, rfl⟩
  intro l₁ l₂ h
  have ht : transformA a l₁ = transformA a l₂ := transformA_congr a l₁ l₂ h
  have he : getExplanation a l₁ = getExplanation a l₂ := by
    unfold getExplanation
    rw [ht]
  show some (predictA a l₁) = some (predictA a l₂)
  unfold predictA
  rw [ht, he]

/-- Witness for C6: a lead made only of non-schema keys predicts exactly
as the empty lead, and the empty lead yields a record. -/
theorem predict_schema_only_and_empty_lead_witness :
    scorerPredict (some sampleArtifact) [("lead_id", .num 99), ("created_at", .str "now")]
        = scorerPredict (some sampleArtifact) [] ∧
    scorerPredict (some sampleArtifact) [] = some (predictA sampleArtifact []) :=
  ⟨(predict_schema_only_and_empty_lead sampleArtifact).1
      [("lead_id", .num 99), ("created_at", .str "now")] [] (by decide),
    (predict_schema_only_and_empty_lead sampleArtifact).2.1⟩

/-! ## C8 -/

/-- C8: determinism — two calls of `predict` on the same loaded artifact
with an identical lead mapping return identical output: same score, same
probability, same explanation lists, identical record. -/
theorem predict_deterministic (s : Option Artifact) (lead : Lead) (r₁ r₂ : ScoreRecord)
    (h₁ : scorerPredict s lead = some r₁) (h₂ : scorerPredict s lead = some r₂) :
    r₁.score = r₂.score ∧ r₁.probability = r₂.probability ∧
      r₁.explanation = r₂.explanation ∧ r₁ = r₂ := by
  have h : some r₁ = some r₂ := h₁.symm.trans h₂
  obtain rfl : r₁ = r₂ := Option.some.inj h
  exact ⟨rfl, rfl, rfl, rfl⟩

/-- Witness for C8 on the concrete artifact and the sample lead shape of
`predict.py`'s `__main__` block. -/
theorem predict_deterministic_witness :
    (predictA sampleArtifact unseenLead).score = (predictA sampleArtifact unseenLead).score ∧
    (predictA sampleArtifact unseenLead).probability
      = (predictA sampleArtifact unseenLead).probability ∧
    (predictA sampleArtifact unseenLead).explanation
      = (predictA sampleArtifact unseenLead).explanation ∧
    predictA sampleArtifact unseenLead = predictA sampleArtifact unseenLead :=
  predict_deterministic (some sampleArtifact) unseenLead _ _ rfl rfl

/-! ## C9 -/

/-- C9: persistence failures never prevent scoring — `process_new_lead`
returns the freshly computed score record whatever the DB calls do, and a
failing ingest or score-persist call is reported separately (caught,
logged, and exposed here as the corresponding error field). -/
theorem scoring_survives_db_failure (a : Artifact) (d : DB) (t : ℤ)
    (lead : Lead) (tenant : String) :
    (processNewLead (some a) (some d) t lead tenant).result = some (predictA a lead) ∧
    (∀ e, d.insertLead lead tenant = .error e →
      (processNewLead (some a) (some d) t lead tenant).ingestError = some e) ∧
    (∀ i e, d.insertLead lead tenant = .ok i →
      d.insertScore i (predictA a lead).score (predictA a lead).probability
          (predictA a lead).explanation = .error e →
      (processNewLead (some a) (some d) t lead tenant).persistError = some e) := by
  refine ⟨rfl, ?_, ?_⟩
  · intro e he
    simp [processNewLead, scorerPredict, he]
  · intro i e hok hscore
    simp [processNewLead, scorerPredict, hok, hscore]

/-- Witness for C9: with a DB whose calls all fail the score is still
returned and the ingest failure reported; with a DB whose score persist
fails, that failure is reported. -/
theorem scoring_survives_db_failure_witness :
    (processNewLead (some sampleArtifact) (some failingDB) 70 [] "default").result
        = some (predictA sampleArtifact []) ∧
    (processNewLead (some sampleArtifact) (some failingDB) 70 [] "default").ingestError
        = some "db down" ∧
    (processNewLead (some sampleArtifact) (some halfFailingDB) 70 [] "default").persistError
        = some "score insert failed" :=
  ⟨(scoring_survives_db_failure sampleArtifact failingDB 70 [] "default").1,
    (scoring_survives_db_failure sampleArtifact failingDB 70 [] "default").2.1 "db down" rfl,
    (scoring_survives_db_failure sampleArtifact halfFailingDB 70 [] "default").2.2 7
      "score insert failed" rfl rfl⟩

/-! ## C10 -/

/-- C10: the high-intent action is triggered if and only if prediction
succeeded and the returned score is at least the orchestrator's
`action_threshold`, whose default is 70; leads scoring below the
threshold never trigger it. -/
theorem action_iff_threshold (s : Option Artifact) (db : Option DB) (t : ℤ)
    (lead : Lead) (tenant : String) :
    ((processNewLead s db t lead tenant).actionTriggered = true ↔
      ∃ r : ScoreRecord, scorerPredict s lead = some r ∧ t ≤ r.score) ∧
    defaultActionThreshold = 70 := by
  refine ⟨?_, rfl⟩
  cases s with
  | none =>
    constructor
    · intro h
      cases h
    · rintro ⟨r, hr, -⟩
      cases hr
  | some a =>
    have hA : (processNewLead (some a) db t lead tenant).actionTriggered
        = decide (t ≤ (predictA a lead).score) := rfl
    rw [hA]
    constructor
    · intro h
      exact ⟨predictA a lead, rfl, of_decide_eq_true h⟩
    · rintro ⟨r, hr, hle⟩
      obtain rfl : predictA a lead = r := Option.some.inj hr
      exact decide_eq_true hle

/-- Witness for C10: with threshold 0 the sample artifact's score (50)
triggers the action; with the default threshold 70 it does not. -/
theorem action_iff_threshold_witness :
    (processNewLead (some sampleArtifact) none 0 [] "default").actionTriggered = true ∧
    (processNewLead (some sampleArtifact) none 70 [] "default").actionTriggered = false := by
  constructor
  · refine (action_iff_threshold (some sampleArtifact) none 0 [] "default").1.mpr
      ⟨predictA sampleArtifact [], rfl, ?_⟩
    norm_num [predictA, sampleArtifact, pythonRound]
  · have h := (action_iff_threshold (some sampleArtifact) none 70 [] "default").1
    refine Bool.eq_false_iff.mpr (fun ht => ?_)
    obtain ⟨r, hr, hle⟩ := h.mp ht
    obtain rfl : predictA sampleArtifact [] = r := Option.some.inj hr
    norm_num [predictA, sampleArtifact, pythonRound] at hle
